import Mathlib

set_option maxRecDepth 8000

/-! Verification of the conversation-routing and flow-state logic of the
e-commerce support chatbot (`src/chatbot.py`, `src/utils/helpers.py`,
`src/agents/human_rep_agent.py`, `src/services/contact_service.py`, `app.py`).

Modelling conventions: Python strings are `String` (or `List Char` where the
proofs walk characters); pandas timestamps are `Nat` (pd.to_datetime is
order-isomorphic on the dataset's timestamp strings, so comparisons and sorting
are preserved); external collaborators (the LLM, the Chroma vector store, the
contact database, strftime date rendering and the current clock) are fields of
an explicit environment record, matching the spec's collaborator contracts. -/

namespace ECommerceBot

/-- Python `str.lower()` (ASCII case folding, which is what the chatbot's
keyword matching relies on). -/
def pyLower (s : String) : String :=
  (s.toList.map Char.toLower).asString

/-- Python `needle in haystack` substring containment. -/
def strContains (hay needle : String) : Bool :=
  decide (needle.toList <:+: hay.toList)

/-- `any(p in text for p in phrases)` as used all over `chat_with_user`. -/
def containsAny (text : String) (phrases : List String) : Bool :=
  phrases.any (fun p => strContains text p)

/-- Python `str.strip()` on a character list. -/
def stripL (l : List Char) : List Char :=
  ((l.dropWhile Char.isWhitespace).reverse.dropWhile Char.isWhitespace).reverse

/-- Python `str.strip()`. -/
def pyStrip (s : String) : String :=
  (stripL s.toList).asString

/-- The character class `[a-zA-Z0-9]`, i.e. Python's
`set(string.ascii_letters + string.digits)`. -/
def isAlnumA (c : Char) : Bool :=
  c.isAlpha || c.isDigit

/-- Leftmost match of the regex `[a-zA-Z0-9]{32}` (the first element of
`ORDER_ID_PATTERN_SEARCH.findall(text)` in `src/utils/helpers.py`): the engine
tries each start position left to right and takes 32 consecutive alphanumeric
characters.  Note the compiled pattern carries no word-boundary anchors. -/
def findRun32 : List Char → Option (List Char)
  | [] => none
  | c :: rest =>
    if ((c :: rest).take 32).length = 32 ∧ ((c :: rest).take 32).all isAlnumA = true then
      some ((c :: rest).take 32)
    else findRun32 rest

/-- `extract_order_id` from `src/utils/helpers.py` (lines 11-54): `None` on
empty input; fast path when the whole stripped text is exactly 32 alphanumeric
characters; otherwise the first regex match inside the stripped text;
otherwise `None`. -/
def extract_order_id (text : List Char) : Option (List Char) :=
  if text = [] then none
  else
    let t := stripL text
    if t.length = 32 ∧ t.all isAlnumA = true then some t
    else findRun32 t

/-- A 32-character all-alphanumeric window of `l` starting at index `i`. -/
def goodWin (l : List Char) (i : Nat) : Prop :=
  i + 32 ≤ l.length ∧ ((l.drop i).take 32).all isAlnumA = true

instance (l : List Char) (i : Nat) : Decidable (goodWin l i) := by
  unfold goodWin; infer_instance

/-- The spec's notion of "a run of exactly 32 alphanumeric characters bounded
by non-alphanumeric characters or by the string's edges" (§8), as a decidable
check.  This is the spec-side definition used to compare the specified
extraction contract with the implemented one. -/
def hasBoundedRun32 (l : List Char) : Bool :=
  (List.range (l.length + 1)).any fun i =>
    ((l.drop i).take 32).length == 32 &&
    ((l.drop i).take 32).all isAlnumA &&
    (i == 0 || !(isAlnumA (l.getD (i - 1) ' '))) &&
    (i + 32 == l.length || !(isAlnumA (l.getD (i + 32) ' ')))

lemma goodWin_cons_succ (c : Char) (rest : List Char) (j : Nat) :
    goodWin (c :: rest) (j + 1) ↔ goodWin rest j := by
  unfold goodWin
  simp only [List.length_cons, List.drop_succ_cons]
  constructor <;> rintro ⟨h1, h2⟩ <;> exact ⟨by omega, h2⟩

lemma goodWin_zero_iff (l : List Char) :
    goodWin l 0 ↔ (l.take 32).length = 32 ∧ (l.take 32).all isAlnumA = true := by
  unfold goodWin
  simp only [List.drop_zero, List.length_take]
  constructor <;> rintro ⟨h1, h2⟩ <;> exact ⟨by omega, h2⟩

lemma findRun32_none_iff (l : List Char) :
    findRun32 l = none ↔ ∀ i, ¬ goodWin l i := by
  induction l with
  | nil =>
    simp only [findRun32, true_iff]
    intro i hi
    exact absurd hi.1 (by simp [goodWin])
  | cons c rest ih =>
    by_cases hc : ((c :: rest).take 32).length = 32 ∧ ((c :: rest).take 32).all isAlnumA = true
    · simp only [findRun32, if_pos hc]
      constructor
      · intro h; exact absurd h (by simp)
      · intro h
        exact absurd ((goodWin_zero_iff (c :: rest)).2 hc) (h 0)
    · simp only [findRun32, if_neg hc, ih]
      constructor
      · intro h i
        match i with
        | 0 => exact fun hg => hc ((goodWin_zero_iff (c :: rest)).1 hg)
        | j + 1 => exact fun hg => h j ((goodWin_cons_succ c rest j).1 hg)
      · intro h j hg
        exact h (j + 1) ((goodWin_cons_succ c rest j).2 hg)

lemma findRun32_some (l r : List Char) (h : findRun32 l = some r) :
    ∃ i, goodWin l i ∧ r = (l.drop i).take 32 ∧ ∀ j, j < i → ¬ goodWin l j := by
  induction l with
  | nil => simp [findRun32] at h
  | cons c rest ih =>
    by_cases hc : ((c :: rest).take 32).length = 32 ∧ ((c :: rest).take 32).all isAlnumA = true
    · simp only [findRun32, if_pos hc] at h
      refine ⟨0, (goodWin_zero_iff (c :: rest)).2 hc, ?_, by omega⟩
      simp only [List.drop_zero]
      exact (Option.some_inj.mp h).symm
    · simp only [findRun32, if_neg hc] at h
      obtain ⟨i, hg, hr, hmin⟩ := ih h
      refine ⟨i + 1, (goodWin_cons_succ c rest i).2 hg, by simpa using hr, ?_⟩
      intro j hj
      match j with
      | 0 => exact fun hg0 => hc ((goodWin_zero_iff (c :: rest)).1 hg0)
      | j' + 1 =>
        exact fun hg' => hmin j' (by omega) ((goodWin_cons_succ c rest j').1 hg')

lemma window_infix (l : List Char) (i : Nat) : (l.drop i).take 32 <:+: l :=
  (List.take_prefix 32 (l.drop i)).isInfix.trans (l.drop_suffix i).isInfix

lemma findRun32_props (l r : List Char) (h : findRun32 l = some r) :
    r.length = 32 ∧ r.all isAlnumA = true ∧ r <:+: l := by
  obtain ⟨i, hg, hr, -⟩ := findRun32_some l r h
  subst hr
  refine ⟨?_, hg.2, window_infix l i⟩
  have := hg.1
  simp only [List.length_take, List.length_drop]
  omega

/-- C10: `extract_order_id` is total (modelled as a Lean function, it cannot
raise; the Python `isinstance` guard is outside the typed model), the empty
input yields `None`, and every returned value is a 32-character alphanumeric
contiguous substring of the stripped input text. -/
theorem extract_order_id_safety :
    extract_order_id [] = none ∧
    ∀ (l r : List Char), extract_order_id l = some r →
      r.length = 32 ∧ r.all isAlnumA = true ∧ r <:+: stripL l := by
  refine ⟨rfl, ?_⟩
  intro l r h
  unfold extract_order_id at h
  by_cases hl : l = []
  · simp [hl] at h
  · rw [if_neg hl] at h
    by_cases hfast : (stripL l).length = 32 ∧ (stripL l).all isAlnumA = true
    · rw [if_pos hfast] at h
      obtain rfl : stripL l = r := Option.some_inj.mp h
      exact ⟨hfast.1, hfast.2, List.infix_rfl⟩
    · rw [if_neg hfast] at h
      exact findRun32_props _ r h

def exInputC10 : List Char := "order abc123def456ghi789jkl012mno345p0!".toList

def exRunC10 : List Char := "abc123def456ghi789jkl012mno345p0".toList

theorem extract_order_id_safety_witness :
    extract_order_id exInputC10 = some exRunC10 ∧
      exRunC10.length = 32 ∧ exRunC10.all isAlnumA = true ∧ exRunC10 <:+: stripL exInputC10 :=
  ⟨by decide, extract_order_id_safety.2 exInputC10 exRunC10 (by decide)⟩

/-- C2 (amended): `extract_order_id` requires no boundedness.  It returns
`None` exactly when the stripped input has no 32-character all-alphanumeric
window, and when it returns a value, that value is the window at the leftmost
position at which 32 consecutive alphanumeric characters begin (so a run
longer than 32 yields its first 32 characters). -/
theorem extract_order_id_first_window (l : List Char) :
    (extract_order_id l = none ↔ ∀ i, ¬ goodWin (stripL l) i) ∧
    ∀ r, extract_order_id l = some r →
      ∃ i, goodWin (stripL l) i ∧ r = ((stripL l).drop i).take 32 ∧
        ∀ j, j < i → ¬ goodWin (stripL l) j := by
  by_cases hl : l = []
  · subst hl
    refine ⟨iff_of_true rfl ?_, ?_⟩
    · intro i hi
      have h1 := hi.1
      simp only [stripL, List.dropWhile_nil, List.reverse_nil, List.length_nil] at h1
      omega
    · intro r h
      unfold extract_order_id at h
      simp at h
  · unfold extract_order_id
    rw [if_neg hl]
    by_cases hfast : (stripL l).length = 32 ∧ (stripL l).all isAlnumA = true
    · obtain ⟨h32, hall⟩ := hfast
      rw [if_pos ⟨h32, hall⟩]
      have hg0 : goodWin (stripL l) 0 := by
        refine ⟨by omega, ?_⟩
        rwa [List.drop_zero, List.take_of_length_le (by omega)]
      refine ⟨iff_of_false (by simp) fun hc => hc 0 hg0, ?_⟩
      intro r h
      obtain rfl : stripL l = r := Option.some_inj.mp h
      exact ⟨0, hg0, by rw [List.drop_zero, List.take_of_length_le (by omega)], by omega⟩
    · rw [if_neg hfast]
      exact ⟨findRun32_none_iff _, fun r h => findRun32_some _ r h⟩

def exRun33 : List Char := List.replicate 33 'a'

/-- C2 counterexample: a run of 33 alphanumeric characters contains no run of
exactly 32 bounded by non-alphanumerics or edges, yet `extract_order_id`
returns (the first 32 characters of) it rather than nothing. -/
theorem extract_order_id_boundedness_cex :
    hasBoundedRun32 exRun33 = false ∧
      extract_order_id exRun33 = some (List.replicate 32 'a') := by
  constructor <;> decide

theorem extract_order_id_first_window_witness :
    extract_order_id exRun33 = some (List.replicate 32 'a') ∧
      ∃ i, goodWin (stripL exRun33) i ∧
        List.replicate 32 'a' = ((stripL exRun33).drop i).take 32 ∧
        ∀ j, j < i → ¬ goodWin (stripL exRun33) j :=
  ⟨by decide, (extract_order_id_first_window exRun33).2 (List.replicate 32 'a') (by decide)⟩

/-! The chatbot's own identifier pattern (`src/chatbot.py`):
`re.search(r'\b([a-f0-9]{32})\b', text)` — lowercase hex only, with word
boundaries.  `\w` is modelled for the ASCII inputs the chatbot handles. -/

def isHexLower (c : Char) : Bool :=
  (decide ('a' ≤ c) && decide (c ≤ 'f')) || c.isDigit

def isWordChar (c : Char) : Bool :=
  c.isAlphanum || c == '_'

def boundaryOk : Option Char → Bool
  | none => true
  | some c => !(isWordChar c)

def afterBoundaryOk : List Char → Bool
  | [] => true
  | c :: _ => !(isWordChar c)

/-- Leftmost `\b[a-f0-9]{32}\b` match; `prev` is the character before the
current scan position (for the left word boundary). -/
def hexSearchAux (prev : Option Char) : List Char → Option (List Char)
  | [] => none
  | c :: rest =>
    if ((c :: rest).take 32).length = 32 ∧ ((c :: rest).take 32).all isHexLower = true
        ∧ boundaryOk prev = true ∧ afterBoundaryOk ((c :: rest).drop 32) = true then
      some ((c :: rest).take 32)
    else hexSearchAux (some c) rest

/-- `re.search(r'\b([a-f0-9]{32})\b', s)`, returning the matched group. -/
def hexSearch (s : String) : Option String :=
  (hexSearchAux none s.toList).map List.asString

/-- Python `str.split()` (split on runs of whitespace, no empty fields). -/
def wordsAux (cur : List Char) : List Char → List (List Char)
  | [] => if cur = [] then [] else [cur.reverse]
  | c :: rest =>
    if c.isWhitespace then
      if cur = [] then wordsAux [] rest else cur.reverse :: wordsAux [] rest
    else wordsAux (c :: cur) rest

def pyWords (s : String) : List String :=
  (wordsAux [] s.toList).map List.asString

/-! ## Conversation data model (`ChatbotState` in `src/chatbot.py`) -/

/-- One `{role, content}` entry of `state["messages"]`. -/
structure Msg where
  role : String
  content : String
deriving DecidableEq, Repr

def userMsg (s : String) : Msg := ⟨"user", s⟩

def asstMsg (s : String) : Msg := ⟨"assistant", s⟩

/-- The per-session state dict (`ChatbotState`).  `persist_attempted` is
instrumentation recording that the contact-request CSV write was executed,
so that "a persistence attempt was made" is expressible. -/
structure ChatState where
  messages : List Msg
  order_lookup_attempted : Bool
  current_order_id : Option String
  needs_human_agent : Bool
  contact_info_collected : Bool
  customer_name : Option String
  customer_email : Option String
  customer_phone : Option String
  contact_step : Nat
  persist_attempted : Bool
deriving DecidableEq, Repr

/-- The fresh state built by `chat_with_user` when `chat_state is None`
(and by the `__main__` REPL). -/
def initState : ChatState :=
  { messages := []
    order_lookup_attempted := false
    current_order_id := none
    needs_human_agent := false
    contact_info_collected := false
    customer_name := none
    customer_email := none
    customer_phone := none
    contact_step := 0
    persist_attempted := false }

/-- One row of the orders dataset, as indexed by `create_order_index`
(`src/utils.py`).  Timestamps are the pandas-parsed values; optional dates are
`none` where pandas reports `NaN`. -/
structure OrderData where
  order_id : String
  customer_id : String
  order_status : String
  order_purchase_timestamp : Nat
  order_approved_at : Option Nat
  order_delivered_customer_date : Option Nat
  order_estimated_delivery_date : Option Nat
deriving DecidableEq, Repr

instance : Inhabited OrderData :=
  ⟨{ order_id := "", customer_id := "", order_status := ""
     order_purchase_timestamp := 0, order_approved_at := none
     order_delivered_customer_date := none, order_estimated_delivery_date := none }⟩

/-- The metadata stored per order in the Chroma collection
(`create_order_vector_db` stores exactly these four fields). -/
structure VecMeta where
  order_id : String
  customer_id : String
  status : String
  purchase_date : Nat
deriving DecidableEq, Repr

instance : Inhabited VecMeta := ⟨{ order_id := "", customer_id := "", status := "", purchase_date := 0 }⟩

/-- The `details` dict handed to `format_order_details`. -/
structure Details where
  purchase_date : Option Nat
  delivery_date : Option Nat
  approved_date : Option Nat
  estimated_delivery : Option Nat
  actual_delivery : Option Nat
deriving DecidableEq, Repr

/-- External collaborators, per the spec's §6 contracts: the two in-memory
indexes built at startup, the vector store queried by exact metadata filter,
the LLM (any text it may return, including its internal fallback strings),
strftime date rendering, the current clock, and whether the order-data load
inside `chat_with_user`'s `try` blocks succeeds. -/
structure Env where
  order_index : String → Option OrderData
  customer_index : String → List OrderData
  vec_order : String → Option VecMeta
  vec_customer : String → List VecMeta
  llm : List Msg → String
  renderDate : Nat → String
  now : Nat
  dataOk : Bool

/-- `f"{x}"` on an optional Python string (`None` renders as `"None"`). -/
def pyShowOpt : Option String → String
  | some s => s
  | none => "None"

/-! ## Order formatting (`src/utils.py`, `src/config.py`) -/

/-- `ORDER_STATUS_DESCRIPTIONS` from `src/config.py`. -/
def ORDER_STATUS_DESCRIPTIONS : List (String × String) :=
  [("created", "Your order has been created but not yet processed. Payment is being verified."),
   ("approved", "Your payment has been approved and your order is being prepared for shipping."),
   ("processing", "Your order is currently being processed in our warehouse."),
   ("shipped", "Your order has been shipped and is on its way to you."),
   ("delivered", "Your order has been delivered to the specified address."),
   ("canceled", "Your order has been canceled."),
   ("unavailable", "Some items in your order are currently unavailable."),
   ("invoiced", "Your order has been invoiced and is being prepared for shipping.")]

/-- `ORDER_STATUS_DESCRIPTIONS.get(status, f"Unknown status ('{status}')")`. -/
def statusDescription (status : String) : String :=
  match ORDER_STATUS_DESCRIPTIONS.lookup status with
  | some d => d
  | none => "Unknown status ('" ++ status ++ "')"

/-- Python `str.capitalize()`. -/
def pyCapitalize (s : String) : String :=
  match s.toList with
  | [] => ""
  | c :: rest => (c.toUpper :: rest.map Char.toLower).asString

/-- The `format_date` helper inside `format_order_details`: `NaN` (here
`none`) renders as the default, otherwise `strftime('%B %d, %Y')` (the
environment's renderer, since date formatting is pandas behaviour). -/
def format_date (env : Env) (v : Option Nat) (dflt : String) : String :=
  match v with
  | none => dflt
  | some d => env.renderDate d

/-- `format_order_details` from `src/utils.py` (lines 145-263).  `details` is
always a populated dict at the modelled call sites, and `status` is a
non-`None` string, so only the empty-string guards remain live. -/
def format_order_details (env : Env) (order_id status : String) (details : Details) : String :=
  if order_id = "" then "I need an order ID to provide details."
  else
    let status := if status = "" then "unknown" else status
    let purchase_date_str := format_date env details.purchase_date "Not available"
    let approved_date_str := format_date env details.approved_date "Not available"
    let actual_delivery_str := format_date env details.actual_delivery "Not yet delivered"
    let estPair :=
      match details.estimated_delivery with
      | none => ("Not available", false)
      | some d =>
        if d < env.now ∧ status ≠ "delivered" ∧ status ≠ "canceled" then
          (env.renderDate d ++ " (Potentially Overdue)", true)
        else (env.renderDate d, false)
    let estimated_delivery_str := estPair.1
    let is_overdue := estPair.2
    let status_description := statusDescription status
    let response_lines : List String :=
      ["Okay, here's the information for order #" ++ order_id ++ ":",
       "Status: **" ++ pyCapitalize status ++ "**",
       "   - " ++ status_description,
       "Purchased on: " ++ purchase_date_str]
    let response_lines := response_lines ++
      (if status ≠ "canceled" ∧ status ≠ "created" then
        (if approved_date_str ≠ "Not available" then ["Payment Approved on: " ++ approved_date_str] else []) ++
        (if estimated_delivery_str ≠ "Not available" then ["Estimated Delivery: " ++ estimated_delivery_str] else []) ++
        (if status = "delivered" then ["Delivered on: " ++ actual_delivery_str]
         else if status = "shipped" then ["Tracking: [Tracking information not available in this demo]"]
         else [])
       else [])
    let response_lines := response_lines ++
      (if status = "processing" then
        ["\nYour order is being prepared. You'll receive an update once it ships."]
       else if status = "shipped" then
        ["\nYour order is on its way!"] ++
          (if is_overdue then
            ["It seems to be past the estimated delivery date. Please allow a little extra time, or contact support if it doesn't arrive soon."]
           else [])
       else if status = "canceled" then
        ["\nThis order was canceled. If this seems incorrect, please contact customer support."]
       else if status = "delivered" then
        (if is_overdue then ["\nWe apologize if the delivery was later than estimated."] else []) ++
          ["\nWe hope you enjoy your items!"]
       else if is_overdue then
        ["\nThis order is past its estimated delivery date. Please contact customer support for assistance."]
       else [])
    String.intercalate "\n" response_lines

/-- The `details` dict built from an indexed dataset row (the repeated
`pd.notna(...)`-guarded dict literal in `src/chatbot.py`). -/
def detailsOf (od : OrderData) : Details :=
  { purchase_date := some od.order_purchase_timestamp
    delivery_date := od.order_delivered_customer_date
    approved_date := od.order_approved_at
    estimated_delivery := od.order_estimated_delivery_date
    actual_delivery := od.order_delivered_customer_date }

/-- The `details` dict built from vector-store metadata: only `purchase_date`
exists among the queried keys, the `.get(...)` calls all yield `None`. -/
def detailsOfMeta (m : VecMeta) : Details :=
  { purchase_date := some m.purchase_date
    delivery_date := none
    approved_date := none
    estimated_delivery := none
    actual_delivery := none }

/-! `sorted(orders, key=lambda x: pd.to_datetime(x[...]), reverse=True)`:
a stable descending sort by the (parsed) purchase timestamp.  Python's sort is
stable and `reverse=True` keeps the original order among equal keys, which is
exactly what stable insertion by strict dominance produces. -/

def insertDescBy {α : Type} (key : α → Nat) (a : α) : List α → List α
  | [] => [a]
  | x :: xs => if key x ≤ key a then a :: x :: xs else x :: insertDescBy key a xs

def sortDescBy {α : Type} (key : α → Nat) : List α → List α
  | [] => []
  | x :: xs => insertDescBy key x (sortDescBy key xs)

lemma mem_insertDescBy {α : Type} (key : α → Nat) (a x : α) (l : List α) :
    x ∈ insertDescBy key a l ↔ x = a ∨ x ∈ l := by
  induction l with
  | nil => simp [insertDescBy]
  | cons y ys ih =>
    by_cases h : key y ≤ key a
    · simp [insertDescBy, h]
    · simp only [insertDescBy, if_neg h, List.mem_cons, ih]
      tauto

lemma mem_sortDescBy {α : Type} (key : α → Nat) (x : α) (l : List α) :
    x ∈ sortDescBy key l ↔ x ∈ l := by
  induction l with
  | nil => simp [sortDescBy]
  | cons y ys ih => simp [sortDescBy, mem_insertDescBy, ih]

lemma pairwise_insertDescBy {α : Type} (key : α → Nat) (a : α) (l : List α)
    (h : l.Pairwise (fun x y => key y ≤ key x)) :
    (insertDescBy key a l).Pairwise (fun x y => key y ≤ key x) := by
  induction l with
  | nil => simp [insertDescBy]
  | cons y ys ih =>
    rw [List.pairwise_cons] at h
    by_cases hle : key y ≤ key a
    · rw [insertDescBy, if_pos hle, List.pairwise_cons]
      refine ⟨?_, List.pairwise_cons.mpr h⟩
      intro z hz
      rcases List.mem_cons.mp hz with rfl | hz'
      · exact hle
      · exact le_trans (h.1 z hz') hle
    · rw [insertDescBy, if_neg hle, List.pairwise_cons]
      refine ⟨?_, ih h.2⟩
      intro z hz
      rcases (mem_insertDescBy key a z ys).mp hz with rfl | hz'
      · exact le_of_not_le hle
      · exact h.1 z hz'

lemma pairwise_sortDescBy {α : Type} (key : α → Nat) (l : List α) :
    (sortDescBy key l).Pairwise (fun x y => key y ≤ key x) := by
  induction l with
  | nil => simp [sortDescBy]
  | cons y ys ih => exact pairwise_insertDescBy key y _ ih

/-- `sorted(..., reverse=True)[0]` carries the maximal purchase timestamp:
every order in the list was purchased no later than the selected one. -/
lemma sortDescBy_headI_max {α : Type} [Inhabited α] (key : α → Nat) (l : List α)
    (x : α) (hx : x ∈ l) : key x ≤ key ((sortDescBy key l).headI) := by
  have hmem : x ∈ sortDescBy key l := (mem_sortDescBy key x l).2 hx
  cases hs : sortDescBy key l with
  | nil => rw [hs] at hmem; simp at hmem
  | cons h t =>
    rw [hs] at hmem
    have hp := pairwise_sortDescBy key l
    rw [hs, List.pairwise_cons] at hp
    rcases List.mem_cons.mp hmem with rfl | hx'
    · simp [List.headI]
    · simpa [List.headI] using hp.1 x hx'

/-! ## The `lookup_order` graph node (`src/chatbot.py`, lines 315-428) -/

/-- The re-prompt emitted when the message carries no identifier. -/
def lookupPromptText : String :=
  "I'd be happy to help check your order status. Could you please provide your order ID or customer ID? It should be a 32-character alphanumeric code."

/-- The response string computed by `lookup_order` for the (optional)
identifier extracted from the last message: order index first, then customer
index (most recent of several), then the vector store (order id, then
customer id), then not-found. -/
def lookupResponse (env : Env) (oid : Option String) : String :=
  match oid with
  | none => lookupPromptText
  | some extracted_id =>
    match env.order_index extracted_id with
    | some order_data =>
      format_order_details env extracted_id order_data.order_status (detailsOf order_data)
    | none =>
      match env.customer_index extracted_id with
      | od :: rest =>
        if rest = [] then
          "I found an order for your customer ID. " ++
            format_order_details env od.order_id od.order_status (detailsOf od)
        else
          let recent := (sortDescBy OrderData.order_purchase_timestamp (od :: rest)).headI
          "I found " ++ toString (od :: rest).length ++
            " orders for your customer ID. Here's the status of your most recent order: " ++
            format_order_details env recent.order_id recent.order_status (detailsOf recent)
      | [] =>
        match env.vec_order extracted_id with
        | some m =>
          format_order_details env extracted_id m.status (detailsOfMeta m)
        | none =>
          match env.vec_customer extracted_id with
          | m :: rest =>
            if rest = [] then
              "I found an order for your customer ID. " ++
                format_order_details env m.order_id m.status (detailsOfMeta m)
            else
              let recent := (sortDescBy VecMeta.purchase_date (m :: rest)).headI
              "I found " ++ toString (m :: rest).length ++
                " orders for your customer ID. Here's the most recent one: " ++
                format_order_details env recent.order_id recent.status (detailsOfMeta recent)
          | [] =>
            "I couldn't find any orders with ID " ++ extracted_id ++
              ". Please check the ID and try again."

/-- The `lookup_order` node: extract a lowercase-hex identifier from the last
message, compute the response, append it, and record the lookup attempt.
`current_order_id` ends up as the extracted id when one was found
(`extracted_id` is in `locals()` and never `"NO_ID"`) and `None` otherwise. -/
def lookup_order (env : Env) (s : ChatState) : ChatState :=
  let last := ((s.messages.getLast?).getD (userMsg "")).content
  let oid := hexSearch last
  { s with
    messages := s.messages ++ [asstMsg (lookupResponse env oid)]
    order_lookup_attempted := true
    current_order_id := oid }

/-- C1: the lookup tries the order-ID index first; failing that, the
customer-ID index, and with more than one order it reports the total count
and the order with the maximal purchase timestamp; an identifier absent from
both indexes and from the vector store yields a not-found message that
contains the identifier verbatim and asks the user to check it. -/
theorem lookup_order_priority (env : Env) (id : String) :
    (∀ od, env.order_index id = some od →
      lookupResponse env (some id) =
        format_order_details env id od.order_status (detailsOf od)) ∧
    (env.order_index id = none →
      ∀ od rest, env.customer_index id = od :: rest → rest ≠ [] →
        ∃ recent,
          recent = (sortDescBy OrderData.order_purchase_timestamp (od :: rest)).headI ∧
          (∀ o ∈ od :: rest, o.order_purchase_timestamp ≤ recent.order_purchase_timestamp) ∧
          lookupResponse env (some id) =
            "I found " ++ toString (od :: rest).length ++
              " orders for your customer ID. Here's the status of your most recent order: " ++
              format_order_details env recent.order_id recent.order_status (detailsOf recent)) ∧
    (env.order_index id = none → env.customer_index id = [] →
      env.vec_order id = none → env.vec_customer id = [] →
      lookupResponse env (some id) =
        "I couldn't find any orders with ID " ++ id ++ ". Please check the ID and try again.") := by
  refine ⟨?_, ?_, ?_⟩
  · intro od h
    simp only [lookupResponse, h]
  · intro h1 od rest h2 h3
    refine ⟨(sortDescBy OrderData.order_purchase_timestamp (od :: rest)).headI, rfl, ?_, ?_⟩
    · intro o ho
      exact sortDescBy_headI_max OrderData.order_purchase_timestamp (od :: rest) o ho
    · simp only [lookupResponse, h1, h2, if_neg h3]
  · intro h1 h2 h3 h4
    simp only [lookupResponse, h1, h2, h3, h4]

def odW1 : OrderData :=
  { order_id := "11112222333344445555666677778888", customer_id := "ccccdddd111122223333444455556666"
    order_status := "delivered", order_purchase_timestamp := 10
    order_approved_at := some 11, order_delivered_customer_date := some 15
    order_estimated_delivery_date := some 20 }

def odW2 : OrderData :=
  { order_id := "aaaabbbbccccddddeeeeffff00001111", customer_id := "ccccdddd111122223333444455556666"
    order_status := "shipped", order_purchase_timestamp := 30
    order_approved_at := some 31, order_delivered_customer_date := none
    order_estimated_delivery_date := some 40 }

def odW3 : OrderData :=
  { order_id := "99998888777766665555444433332222", customer_id := "ccccdddd111122223333444455556666"
    order_status := "processing", order_purchase_timestamp := 20
    order_approved_at := none, order_delivered_customer_date := none
    order_estimated_delivery_date := none }

def envC1 : Env :=
  { order_index := fun _ => none
    customer_index := fun i =>
      if i = "ccccdddd111122223333444455556666" then [odW1, odW2, odW3] else []
    vec_order := fun _ => none
    vec_customer := fun _ => []
    llm := fun _ => ""
    renderDate := fun _ => ""
    now := 0
    dataOk := true }

theorem lookup_order_priority_witness :
    (envC1.order_index "ccccdddd111122223333444455556666" = none ∧
     envC1.customer_index "ccccdddd111122223333444455556666" = [odW1, odW2, odW3] ∧
     ([odW2, odW3] : List OrderData) ≠ [] ∧
     ∃ recent,
       recent = (sortDescBy OrderData.order_purchase_timestamp [odW1, odW2, odW3]).headI ∧
       (∀ o ∈ [odW1, odW2, odW3], o.order_purchase_timestamp ≤ recent.order_purchase_timestamp) ∧
       lookupResponse envC1 (some "ccccdddd111122223333444455556666") =
         "I found " ++ toString ([odW1, odW2, odW3] : List OrderData).length ++
           " orders for your customer ID. Here's the status of your most recent order: " ++
           format_order_details envC1 recent.order_id recent.order_status (detailsOf recent)) ∧
    (envC1.order_index "ffffffffffffffffffffffffffffffff" = none ∧
     envC1.customer_index "ffffffffffffffffffffffffffffffff" = [] ∧
     envC1.vec_order "ffffffffffffffffffffffffffffffff" = none ∧
     envC1.vec_customer "ffffffffffffffffffffffffffffffff" = [] ∧
     lookupResponse envC1 (some "ffffffffffffffffffffffffffffffff") =
       "I couldn't find any orders with ID ffffffffffffffffffffffffffffffff. Please check the ID and try again.") :=
  ⟨⟨rfl, by decide,
    by decide,
    (lookup_order_priority envC1 "ccccdddd111122223333444455556666").2.1 rfl odW1 [odW2, odW3]
      (by decide) (by decide)⟩,
   ⟨rfl, by decide, rfl, rfl,
    (lookup_order_priority envC1 "ffffffffffffffffffffffffffffffff").2.2 rfl (by decide) rfl rfl⟩⟩

/-! ## Canned texts and keyword lists (`src/chatbot.py`) -/

def returnPolicyText : String :=
  "Our return policy is as follows:\n\n1. Items can be returned within 30 days of delivery for a full refund.\n2. Products must be in original packaging and unused condition.\n3. For electronics, returns are accepted within 15 days and must include all accessories.\n4. Shipping costs for returns are covered by the customer unless the item was defective.\n5. Refunds are processed within 5-7 business days after we receive the returned item.\n\nWould you like more information about a specific aspect of our return policy?"

def shippingText : String :=
  "Our shipping policy:\n\n1. Standard shipping (5-7 business days): Free for orders over $35, otherwise $4.99\n2. Express shipping (2-3 business days): $9.99\n3. Next-day delivery (where available): $19.99\n4. International shipping available to select countries\n\nDelivery times may vary based on your location and product availability. You can track your shipment using the order ID provided in your confirmation email.\n\nDo you have any other questions about shipping?"

def paymentText : String :=
  "We accept the following payment methods:\n\n1. Credit cards (Visa, Mastercard, American Express, Discover)\n2. Debit cards\n3. PayPal\n4. Store credit/gift cards\n5. Apple Pay and Google Pay (on mobile)\n\nAll payment information is securely processed and encrypted. We do not store your full credit card details on our servers.\n\nIs there anything specific about our payment options you'd like to know?"

def warrantyText : String :=
  "Our warranty policy:\n\n1. Most products come with a standard 1-year manufacturer's warranty.\n2. Electronics typically include a 90-day warranty against defects.\n3. Extended warranties are available for purchase on select items.\n4. Warranty claims require proof of purchase and the original packaging if possible.\n5. Warranties cover manufacturing defects but not damage from misuse or accidents.\n\nTo make a warranty claim, please contact our customer service with your order details and a description of the issue.\n\nDo you need help with a specific warranty claim?"

def cancelOrderText : String :=
  "Order cancellation information:\n\n1. Orders can be cancelled within 1 hour of placement with no penalty.\n2. Orders that haven't shipped can usually be cancelled through your account dashboard.\n3. For orders that have already shipped, you'll need to wait for delivery and then follow the return process.\n4. Cancellation requests are typically processed within 24 hours.\n5. Refunds for cancelled orders are issued to the original payment method within 3-5 business days.\n\nTo cancel an order, please log into your account or provide your order ID.\n\nWould you like to cancel a specific order?"

def giftCardText : String :=
  "Gift card information:\n\n1. Gift cards are available in amounts from $10 to $500.\n2. Digital gift cards are delivered via email within 24 hours of purchase.\n3. Physical gift cards can be shipped to any address (standard shipping rates apply).\n4. Gift cards do not expire and have no maintenance fees.\n5. Lost or stolen gift cards cannot be replaced unless registered.\n\nTo check your gift card balance, please visit our website and enter your gift card number and PIN.\n\nCan I help you purchase a gift card or check a balance?"

def contactInfoText : String :=
  "Our contact information:\n\nCustomer Service Hours:\n- Monday to Friday: 8:00 AM - 8:00 PM EST\n- Saturday: 9:00 AM - 6:00 PM EST\n- Sunday: 10:00 AM - 5:00 PM EST\n\nPhone: +1-800-123-4567\nEmail: support@ecommerce-example.com\nLive Chat: Available on our website during business hours\n\nFor the fastest response, please have your order number ready when contacting us.\n\nWould you like me to connect you with a customer service representative?"

def custIdRedirectText : String :=
  "I understand you'd like to check your order status using your customer ID. Could you please provide your customer ID? It should be a 32-character alphanumeric code."

def cancelFlowText : String :=
  "I've canceled the request to speak with a human representative. How else can I help you today?"

def askNameText : String :=
  "I'll connect you with a human representative. Could you please provide your name?"

def thankNameText (name : String) : String :=
  "Thank you, " ++ name ++ ". Could you please provide your email address?"

def askPhoneText : String :=
  "Thank you. Finally, could you please provide your phone number?"

def confirmCollectText (email phone : String) : String :=
  "Thank you for providing your information. A customer service representative will contact you soon at " ++
    email ++ " or " ++ phone ++ ". Is there anything else you'd like to add before I submit your request?"

def orderStatusPromptText : String :=
  "To check your order status, I'll need your order ID or customer ID.\n\nThe order ID is a 32-character code that was included in your order confirmation email. It looks something like: e481f51cbdc54678b7cc49136f2d6af7\n\nCould you please provide your order ID?"

def greetingText : String :=
  "Hello! Welcome to our e-commerce support. How can I help you today? You can ask about order status, return policies, shipping information, or connect with a human representative."

def thanksText : String :=
  "You're welcome! Thank you for contacting our support. If you have any other questions in the future, don't hesitate to reach out. Have a great day!"

def graphErrorText : String :=
  "I'm sorry, I don't have specific information about that. Would you like to ask about our return policy, shipping options, order status, or speak with a human representative?"

def connectText : String :=
  "I'm connecting you to a human representative now. Please hold while I transfer your chat. A customer service agent will be with you shortly."

def notFoundBothText (id : String) : String :=
  "I couldn't find any orders or customers with ID " ++ id ++ ". Please check the ID and try again."

def cancel_keywords_cw : List String :=
  ["cancel", "nevermind", "never mind", "stop", "go back", "different question"]

def customer_id_keywords : List String :=
  ["customer id", "my id", "delivery status", "order status", "track"]

def return_policy_phrases : List String :=
  ["return policy", "policy on return", "can i return", "how to return", "policy for returns", "returned items"]

def shipping_phrases : List String :=
  ["shipping policy", "delivery policy", "shipping time", "how long shipping", "shipping cost"]

def payment_phrases : List String :=
  ["payment method", "payment option", "how to pay", "accept payment", "credit card", "debit card", "paypal"]

def warranty_phrases : List String :=
  ["warranty", "guarantee", "product warranty", "warranty policy", "warranty coverage"]

def cancel_order_phrases : List String :=
  ["cancel order", "cancellation policy", "how to cancel", "cancel my purchase", "stop my order"]

def gift_card_phrases : List String :=
  ["gift card", "gift certificate", "store credit", "gift card balance", "redeem gift card"]

def contact_info_phrases : List String :=
  ["contact info", "contact information", "phone number", "email address", "contact us", "customer service contact"]

def human_keywords_cw : List String :=
  ["speak to a human", "talk to a human", "human representative", "real person", "speak to an agent",
   "talk to a representative", "connect me with a human", "human agent please", "agent", "representative",
   "connect me to an agent", "need an agent", "talk to agent", "speak to agent"]

def customer_lookup_phrases : List String :=
  ["my customer id", "customer id", "my id", "how many orders", "my orders"]

def greeting_phrases : List String :=
  ["hello", "hi", "hey", "greetings", "good morning", "good afternoon", "good evening"]

def goodbye_phrases : List String :=
  ["thank you", "thanks", "bye", "goodbye", "see you", "that's all"]

def human_keywords_node : List String :=
  ["speak to a human", "talk to a human", "human representative", "real person", "speak to an agent",
   "talk to a representative", "connect me with a human", "human agent please"]

def human_keywords_router : List String :=
  ["speak to a human", "talk to a human", "human representative", "real person", "speak to an agent",
   "talk to a representative", "connect me with a human", "human agent please", "agent", "representative"]

def standalone_words : List String :=
  ["human", "representative", "agent", "person"]

def policy_words : List String :=
  ["policy", "policies", "return", "shipping", "warranty"]

def cancel_keywords_node : List String :=
  ["cancel", "nevermind", "never mind", "stop", "go back"]

/-- The FAQ-responder contract of spec §4.2, restricted to the seven
categories `chat_with_user` checks before its order-lookup branch, in the
code's priority order: first matching intent wins. -/
def faqMatch7 (low : String) : Option String :=
  if containsAny low return_policy_phrases then some returnPolicyText
  else if containsAny low shipping_phrases then some shippingText
  else if containsAny low payment_phrases then some paymentText
  else if containsAny low warranty_phrases then some warrantyText
  else if containsAny low cancel_order_phrases then some cancelOrderText
  else if containsAny low gift_card_phrases then some giftCardText
  else if containsAny low contact_info_phrases then some contactInfoText
  else none

/-! ## Graph nodes and router (`create_chatbot` in `src/chatbot.py`) -/

/-- `state["messages"][-1]["content"]`.  The graph only runs with a non-empty
message list (the user turn was appended first), so the default is inert. -/
def lastContent (s : ChatState) : String :=
  ((s.messages.getLast?).getD (userMsg "")).content

/-- The `collect_contact_info` node (lines 431-525): cancellation/redirect
check, then the step machine 0→1→2→3→4.  The CSV write at step 3 is recorded
in `persist_attempted`. -/
def collect_contact_info (s : ChatState) : ChatState :=
  let last := lastContent s
  let low := pyLower last
  if containsAny low cancel_keywords_node = true ∨ containsAny low customer_id_keywords = true then
    let s' := { s with needs_human_agent := false, contact_step := 0 }
    if containsAny low customer_id_keywords = true then
      { s' with messages := s'.messages ++ [asstMsg custIdRedirectText] }
    else
      { s' with messages := s'.messages ++ [asstMsg cancelFlowText] }
  else if s.contact_step = 0 then
    { s with contact_step := 1, messages := s.messages ++ [asstMsg askNameText] }
  else if s.contact_step = 1 then
    { s with customer_name := some (pyStrip last), contact_step := 2,
             messages := s.messages ++ [asstMsg (thankNameText (pyStrip last))] }
  else if s.contact_step = 2 then
    { s with customer_email := some (pyStrip last), contact_step := 3,
             messages := s.messages ++ [asstMsg askPhoneText] }
  else if s.contact_step = 3 then
    { s with customer_phone := some (pyStrip last), contact_info_collected := true,
             contact_step := 4, persist_attempted := true,
             messages := s.messages ++
               [asstMsg (confirmCollectText (pyShowOpt s.customer_email) (pyStrip last))] }
  else s

/-- The `continue_conversation` node (lines 527-592).  The LLM call and both
of its fallbacks always produce some response string, which the environment
supplies. -/
def continue_conversation (env : Env) (s : ChatState) : ChatState :=
  let last := pyLower (lastContent s)
  let needs_human :=
    containsAny last human_keywords_node ||
      (standalone_words.any (fun w => (pyWords last).contains w) &&
        !(containsAny last policy_words))
  if needs_human = true then
    { s with needs_human_agent := true, contact_step := 0 }
  else
    { s with messages := s.messages ++ [asstMsg (env.llm s.messages)] }

/-- The `connect_to_agent` node (lines 594-608).  It is registered on the
graph but the router below never selects it. -/
def connect_to_agent (s : ChatState) : ChatState :=
  { s with messages := s.messages ++ [asstMsg connectText],
           needs_human_agent := true, contact_info_collected := true }

inductive NodeTag
  | lookupOrder
  | connectToAgent
  | collectContactInfo
  | continueConversation
  | isEnd
deriving DecidableEq, Repr

/-- The router (lines 611-649).  It inspects the *last* message (which after a
node ran is that node's own response), may flip `needs_human_agent` in place,
and returns the next node name or END.  It never returns `connect_to_agent`
and it appends nothing to `messages`. -/
def router (s : ChatState) : NodeTag × ChatState :=
  let last := pyLower (lastContent s)
  if containsAny last human_keywords_router = true ∧ s.needs_human_agent = false then
    (NodeTag.collectContactInfo, { s with needs_human_agent := true, contact_step := 0 })
  else if s.needs_human_agent = true ∧ s.contact_info_collected = false then
    (NodeTag.collectContactInfo, s)
  else if strContains last "bye" = true ∨ strContains last "thank you" = true
      ∨ strContains last "thanks" = true then
    (NodeTag.isEnd, s)
  else if s.needs_human_agent = true ∧ s.contact_info_collected = true then
    (NodeTag.isEnd, s)
  else if s.order_lookup_attempted = false ∧
      ((strContains last "order" = true ∧
        (strContains last "status" = true ∨ strContains last "where" = true
          ∨ strContains last "track" = true)) ∨
        (hexSearch last).isSome = true) then
    (NodeTag.lookupOrder, s)
  else
    (NodeTag.continueConversation, s)

lemma router_fst_ne_connect (s : ChatState) :
    (router s).1 ≠ NodeTag.connectToAgent := by
  unfold router
  dsimp only
  split_ifs <;> simp

lemma router_snd_messages (s : ChatState) : ((router s).2).messages = s.messages := by
  unfold router
  dsimp only
  split_ifs <;> rfl

def applyNode (env : Env) : NodeTag → ChatState → ChatState
  | NodeTag.lookupOrder, s => lookup_order env s
  | NodeTag.connectToAgent, s => connect_to_agent s
  | NodeTag.collectContactInfo, s => collect_contact_info s
  | NodeTag.continueConversation, s => continue_conversation env s
  | NodeTag.isEnd, s => s

/-! ## `chat_with_user` (lines 670-1074) -/

/-- The turn handler either returns a state directly or falls through to the
compiled graph with the current state. -/
inductive TurnResult
  | direct (s : ChatState)
  | toGraph (s : ChatState)
deriving DecidableEq, Repr

/-- The per-order lines of the multi-order customer summary (lines
1018-1021); `total` is the full order count, `i` the running index. -/
def summaryLines (total : Nat) : Nat → List OrderData → String
  | _, [] => ""
  | i, o :: rest =>
    toString (i + 1) ++ ". Order ID: " ++ o.order_id ++ "\n   Status: " ++ o.order_status ++
      "\n   Purchased: " ++ toString o.order_purchase_timestamp ++ "\n" ++
      (if i < total - 1 then "\n" else "") ++ summaryLines total (i + 1) rest

/-- The multi-order customer summary response (lines 1016-1023). -/
def custIdSummaryText (customer_id : String) (orders : List OrderData) : String :=
  let sorted := sortDescBy OrderData.order_purchase_timestamp orders
  "You have " ++ toString orders.length ++ " orders with customer ID " ++ customer_id ++
    ". Here's a summary:\n\n" ++ summaryLines orders.length 0 (sorted.take 5) ++
    (if orders.length > 5 then
      "\nShowing 5 most recent orders out of " ++ toString orders.length ++ " total."
     else "")

/-- The tail of `chat_with_user` after the handoff/contact-collection section
(lines 917-1074): the direct order lookup, the customer-ID lookup, the
order-status prompt, greeting, goodbye, and finally the graph invocation.
`env.dataOk` is whether the `try` blocks' order-data loading succeeds; on
failure the code falls through ("Continue with graph-based processing"). -/
def chatAfterContact (env : Env) (s : ChatState) (input low : String) : TurnResult :=
  if s.order_lookup_attempted = false ∧ (hexSearch input).isSome = true ∧ env.dataOk = true then
    let extracted_id := (hexSearch input).getD ""
    match env.order_index extracted_id with
    | some order_data =>
      TurnResult.direct { s with
        messages := s.messages ++
          [asstMsg (format_order_details env extracted_id order_data.order_status
            (detailsOf order_data))]
        order_lookup_attempted := true
        current_order_id := some extracted_id }
    | none =>
      match env.customer_index extracted_id with
      | od :: rest =>
        if rest = [] then
          TurnResult.direct { s with
            messages := s.messages ++
              [asstMsg ("I found an order for customer ID " ++ extracted_id ++ ". " ++
                format_order_details env od.order_id od.order_status (detailsOf od))]
            order_lookup_attempted := true
            current_order_id := some od.order_id }
        else
          let recent := (sortDescBy OrderData.order_purchase_timestamp (od :: rest)).headI
          TurnResult.direct { s with
            messages := s.messages ++
              [asstMsg ("I found " ++ toString (od :: rest).length ++ " orders for customer ID " ++
                extracted_id ++ ". Here's the most recent: " ++
                format_order_details env recent.order_id recent.order_status (detailsOf recent))]
            order_lookup_attempted := true
            current_order_id := none }
      | [] =>
        TurnResult.direct { s with
          messages := s.messages ++ [asstMsg (notFoundBothText extracted_id)]
          order_lookup_attempted := true }
  else if s.order_lookup_attempted = false ∧ containsAny low customer_lookup_phrases = true
      ∧ (hexSearch input).isSome = true ∧ env.dataOk = true then
    let customer_id := (hexSearch input).getD ""
    match env.customer_index customer_id with
    | od :: rest =>
      if rest = [] then
        TurnResult.direct { s with
          messages := s.messages ++
            [asstMsg ("You have 1 order with customer ID " ++ customer_id ++
              ". Here are the details: " ++
              format_order_details env od.order_id od.order_status (detailsOf od))]
          order_lookup_attempted := true }
      else
        TurnResult.direct { s with
          messages := s.messages ++ [asstMsg (custIdSummaryText customer_id (od :: rest))]
          order_lookup_attempted := true }
    | [] =>
      TurnResult.direct { s with
        messages := s.messages ++
          [asstMsg ("I couldn't find any orders with customer ID " ++ customer_id ++
            ". Please check the ID and try again.")]
        order_lookup_attempted := true }
  else if s.order_lookup_attempted = false ∧ strContains low "order status" = true then
    TurnResult.direct { s with messages := s.messages ++ [asstMsg orderStatusPromptText] }
  else if containsAny low greeting_phrases = true then
    TurnResult.direct { s with messages := s.messages ++ [asstMsg greetingText] }
  else if containsAny low goodbye_phrases = true then
    TurnResult.direct { s with messages := s.messages ++ [asstMsg thanksText] }
  else TurnResult.toGraph s

/-- The dispatch chain of `chat_with_user` after the user message was
appended (cancellation of an active handoff flow, the seven FAQ categories,
handoff triggers, contact-collection steps, then `chatAfterContact`).
`low` is `user_input.lower()`.  Lines 843-856 compute a local `needs_human`
that the code never reads again (line 859 re-tests the phrase list), so that
dead computation has no counterpart here. -/
def chatDispatch (env : Env) (s : ChatState) (input low : String) : TurnResult :=
  if s.needs_human_agent = true ∧ s.contact_info_collected = false
      ∧ (containsAny low cancel_keywords_cw = true ∨ containsAny low customer_id_keywords = true) then
    let s' := { s with needs_human_agent := false, contact_step := 0 }
    if containsAny low customer_id_keywords = true then
      TurnResult.direct { s' with messages := s'.messages ++ [asstMsg custIdRedirectText] }
    else
      TurnResult.direct { s' with messages := s'.messages ++ [asstMsg cancelFlowText] }
  else if containsAny low return_policy_phrases = true then
    TurnResult.direct { s with messages := s.messages ++ [asstMsg returnPolicyText] }
  else if containsAny low shipping_phrases = true then
    TurnResult.direct { s with messages := s.messages ++ [asstMsg shippingText] }
  else if containsAny low payment_phrases = true then
    TurnResult.direct { s with messages := s.messages ++ [asstMsg paymentText] }
  else if containsAny low warranty_phrases = true then
    TurnResult.direct { s with messages := s.messages ++ [asstMsg warrantyText] }
  else if containsAny low cancel_order_phrases = true then
    TurnResult.direct { s with messages := s.messages ++ [asstMsg cancelOrderText] }
  else if containsAny low gift_card_phrases = true then
    TurnResult.direct { s with messages := s.messages ++ [asstMsg giftCardText] }
  else if containsAny low contact_info_phrases = true then
    TurnResult.direct { s with messages := s.messages ++ [asstMsg contactInfoText] }
  else if containsAny low human_keywords_cw = true ∧ s.needs_human_agent = false then
    TurnResult.direct { s with needs_human_agent := true, contact_step := 1,
                               messages := s.messages ++ [asstMsg askNameText] }
  else if s.needs_human_agent = true ∧ s.contact_info_collected = false then
    if s.contact_step = 1 then
      TurnResult.direct { s with customer_name := some input, contact_step := 2,
                                 messages := s.messages ++ [asstMsg (thankNameText input)] }
    else if s.contact_step = 2 then
      TurnResult.direct { s with customer_email := some input, contact_step := 3,
                                 messages := s.messages ++ [asstMsg askPhoneText] }
    else if s.contact_step = 3 then
      TurnResult.direct { s with customer_phone := some input, contact_info_collected := true,
                                 contact_step := 4, persist_attempted := true,
                                 messages := s.messages ++
                                   [asstMsg (confirmCollectText (pyShowOpt s.customer_email) input)] }
    else chatAfterContact env s input low
  else chatAfterContact env s input low

/-- `chat_with_user` proper: append the user message, then dispatch. -/
def chat_with_user (env : Env) (s₀ : ChatState) (input : String) : TurnResult :=
  chatDispatch env { s₀ with messages := s₀.messages ++ [userMsg input] } input (pyLower input)

/-- Router-directed node applications inside the compiled graph: from a
state, apply the node the router picks, zero or more times. -/
inductive NodeSeq (env : Env) : ChatState → ChatState → Prop
  | refl (s : ChatState) : NodeSeq env s s
  | step (s u : ChatState) (t : NodeTag) :
      (router s).1 = t → t ≠ NodeTag.isEnd →
      NodeSeq env (applyNode env t (router s).2) u →
      NodeSeq env s u

/-- `chatbot.invoke` (entry point `continue_conversation`, then the router
loop): either the loop reaches END and yields the final channel state, or the
invocation raises (e.g. the recursion limit of the router loop) and the
`except` handler at line 1066 returns the caller's dict — whose scalar fields
the copied channel states never touched, but whose shared `messages` list
carries every append — with the fallback text added. -/
def GraphRun (env : Env) (t s' : ChatState) : Prop :=
  ∃ u, NodeSeq env (applyNode env NodeTag.continueConversation t) u ∧
    (((router u).1 = NodeTag.isEnd ∧ s' = (router u).2) ∨
      s' = { t with messages := u.messages ++ [asstMsg graphErrorText] })

/-- One full turn of `chat_with_user`, as a relation (the graph part is
nondeterministic in the environment's failure points). -/
def ChatTurn (env : Env) (s : ChatState) (input : String) (s' : ChatState) : Prop :=
  match chat_with_user env s input with
  | TurnResult.direct t => s' = t
  | TurnResult.toGraph t => GraphRun env t s'

/-- Conversation states reachable from a fresh session. -/
inductive Reachable (env : Env) : ChatState → Prop
  | init : Reachable env initState
  | step (s : ChatState) (input : String) (s' : ChatState) :
      Reachable env s → ChatTurn env s input s' → Reachable env s'

/-- The state carried by a turn result (the returned dict, or the state
handed to the graph). -/
def TurnResult.state : TurnResult → ChatState
  | TurnResult.direct t => t
  | TurnResult.toGraph t => t

/-! ## The contact-data invariant (C8) -/

/-- The inductive invariant: collected contact data is consistent with the
step counter, and a completed collection implies populated fields plus an
executed persistence attempt. -/
def Inv (s : ChatState) : Prop :=
  (2 ≤ s.contact_step → s.customer_name.isSome = true) ∧
  (3 ≤ s.contact_step → s.customer_name.isSome = true ∧ s.customer_email.isSome = true) ∧
  (s.contact_info_collected = true →
    s.customer_name.isSome = true ∧ s.customer_email.isSome = true ∧
      s.customer_phone.isSome = true ∧ s.persist_attempted = true)

lemma inv_keep (s t : ChatState) (h : Inv s)
    (e1 : t.contact_step = s.contact_step) (e2 : t.customer_name = s.customer_name)
    (e3 : t.customer_email = s.customer_email) (e4 : t.customer_phone = s.customer_phone)
    (e5 : t.contact_info_collected = s.contact_info_collected)
    (e6 : t.persist_attempted = s.persist_attempted) : Inv t := by
  obtain ⟨h2, h3, hc⟩ := h
  refine ⟨?_, ?_, ?_⟩
  · rw [e1, e2]; exact h2
  · rw [e1, e2, e3]; exact h3
  · rw [e5, e2, e3, e4, e6]; exact hc

lemma inv_collect (s : ChatState) (h : Inv s) : Inv (collect_contact_info s) := by
  obtain ⟨h2, h3, hc⟩ := h
  unfold collect_contact_info
  dsimp only
  split_ifs with hA hB hS0 hS1 hS2 hS3
  · exact ⟨fun hh => by simp [TurnResult.state] at hh, fun hh => by simp [TurnResult.state] at hh, hc⟩
  · exact ⟨fun hh => by simp [TurnResult.state] at hh, fun hh => by simp [TurnResult.state] at hh, hc⟩
  · exact ⟨fun hh => by simp [TurnResult.state] at hh, fun hh => by simp [TurnResult.state] at hh, hc⟩
  · exact ⟨fun _ => rfl, fun hh => by simp [TurnResult.state] at hh,
      fun hcc => ⟨rfl, (hc hcc).2.1, (hc hcc).2.2.1, (hc hcc).2.2.2⟩⟩
  · exact ⟨fun _ => h2 (by omega), fun _ => ⟨h2 (by omega), rfl⟩,
      fun hcc => ⟨h2 (by omega), rfl, (hc hcc).2.2.1, (hc hcc).2.2.2⟩⟩
  · exact ⟨fun _ => (h3 (by omega)).1, fun _ => ⟨(h3 (by omega)).1, (h3 (by omega)).2⟩,
      fun _ => ⟨(h3 (by omega)).1, (h3 (by omega)).2, rfl, rfl⟩⟩
  · exact ⟨h2, h3, hc⟩

lemma inv_continue (env : Env) (s : ChatState) (h : Inv s) :
    Inv (continue_conversation env s) := by
  obtain ⟨h2, h3, hc⟩ := h
  unfold continue_conversation
  dsimp only
  split_ifs with hA
  · exact ⟨fun hh => by simp [TurnResult.state] at hh, fun hh => by simp [TurnResult.state] at hh, hc⟩
  · exact ⟨h2, h3, hc⟩

lemma inv_router_snd (s : ChatState) (h : Inv s) : Inv (router s).2 := by
  obtain ⟨h2, h3, hc⟩ := h
  unfold router
  dsimp only
  split_ifs
  · exact ⟨fun hh => by simp [TurnResult.state] at hh, fun hh => by simp [TurnResult.state] at hh, hc⟩
  all_goals exact ⟨h2, h3, hc⟩

lemma inv_applyNode (env : Env) (t : NodeTag) (s : ChatState)
    (ht : t ≠ NodeTag.connectToAgent) (h : Inv s) : Inv (applyNode env t s) := by
  cases t with
  | lookupOrder => exact inv_keep s _ h rfl rfl rfl rfl rfl rfl
  | connectToAgent => exact absurd rfl ht
  | collectContactInfo => exact inv_collect s h
  | continueConversation => exact inv_continue env s h
  | isEnd => exact h

lemma inv_nodeSeq (env : Env) (s u : ChatState) (hs : NodeSeq env s u) (h : Inv s) :
    Inv u := by
  induction hs with
  | refl s => exact h
  | step s u t h1 h2 h3 ih =>
    exact ih (inv_applyNode env t _ (h1 ▸ router_fst_ne_connect s) (inv_router_snd s h))

lemma inv_graphRun (env : Env) (t s' : ChatState) (h : Inv t) (hg : GraphRun env t s') :
    Inv s' := by
  obtain ⟨u, hseq, hend⟩ := hg
  have hu : Inv u :=
    inv_nodeSeq env _ u hseq (inv_applyNode env NodeTag.continueConversation t (by simp) h)
  rcases hend with ⟨-, rfl⟩ | rfl
  · exact inv_router_snd u hu
  · exact inv_keep t _ h rfl rfl rfl rfl rfl rfl

lemma inv_cac (env : Env) (s : ChatState) (input low : String) (h : Inv s) :
    Inv (chatAfterContact env s input low).state := by
  unfold chatAfterContact
  dsimp only
  split_ifs with hA hB hC hD hE
  · split
    · exact inv_keep s _ h rfl rfl rfl rfl rfl rfl
    · split
      · split_ifs with hrest
        · exact inv_keep s _ h rfl rfl rfl rfl rfl rfl
        · exact inv_keep s _ h rfl rfl rfl rfl rfl rfl
      · exact inv_keep s _ h rfl rfl rfl rfl rfl rfl
  · split
    · split_ifs with hrest
      · exact inv_keep s _ h rfl rfl rfl rfl rfl rfl
      · exact inv_keep s _ h rfl rfl rfl rfl rfl rfl
    · exact inv_keep s _ h rfl rfl rfl rfl rfl rfl
  · exact inv_keep s _ h rfl rfl rfl rfl rfl rfl
  · exact inv_keep s _ h rfl rfl rfl rfl rfl rfl
  · exact inv_keep s _ h rfl rfl rfl rfl rfl rfl
  · exact h

lemma inv_chatDispatch (env : Env) (s : ChatState) (input low : String) (h : Inv s) :
    Inv (chatDispatch env s input low).state := by
  obtain ⟨h2, h3, hc⟩ := h
  unfold chatDispatch
  by_cases hA : s.needs_human_agent = true ∧ s.contact_info_collected = false
      ∧ (containsAny low cancel_keywords_cw = true ∨ containsAny low customer_id_keywords = true)
  · rw [if_pos hA]
    dsimp only
    by_cases hB : containsAny low customer_id_keywords = true
    · rw [if_pos hB]
      exact ⟨fun hh => by simp [TurnResult.state] at hh, fun hh => by simp [TurnResult.state] at hh, hc⟩
    · rw [if_neg hB]
      exact ⟨fun hh => by simp [TurnResult.state] at hh, fun hh => by simp [TurnResult.state] at hh, hc⟩
  · rw [if_neg hA]
    by_cases hRP : containsAny low return_policy_phrases = true
    · rw [if_pos hRP]; exact ⟨h2, h3, hc⟩
    · rw [if_neg hRP]
      by_cases hSP : containsAny low shipping_phrases = true
      · rw [if_pos hSP]; exact ⟨h2, h3, hc⟩
      · rw [if_neg hSP]
        by_cases hPM : containsAny low payment_phrases = true
        · rw [if_pos hPM]; exact ⟨h2, h3, hc⟩
        · rw [if_neg hPM]
          by_cases hWA : containsAny low warranty_phrases = true
          · rw [if_pos hWA]; exact ⟨h2, h3, hc⟩
          · rw [if_neg hWA]
            by_cases hCO : containsAny low cancel_order_phrases = true
            · rw [if_pos hCO]; exact ⟨h2, h3, hc⟩
            · rw [if_neg hCO]
              by_cases hGC : containsAny low gift_card_phrases = true
              · rw [if_pos hGC]; exact ⟨h2, h3, hc⟩
              · rw [if_neg hGC]
                by_cases hCI : containsAny low contact_info_phrases = true
                · rw [if_pos hCI]; exact ⟨h2, h3, hc⟩
                · rw [if_neg hCI]
                  by_cases hHK : containsAny low human_keywords_cw = true
                      ∧ s.needs_human_agent = false
                  · rw [if_pos hHK]
                    exact ⟨fun hh => by simp [TurnResult.state] at hh, fun hh => by simp [TurnResult.state] at hh, hc⟩
                  · rw [if_neg hHK]
                    by_cases hFL : s.needs_human_agent = true ∧ s.contact_info_collected = false
                    · rw [if_pos hFL]
                      by_cases hS1 : s.contact_step = 1
                      · rw [if_pos hS1]
                        exact ⟨fun _ => rfl, fun hh => by simp [TurnResult.state] at hh,
                          fun hcc => ⟨rfl, (hc hcc).2.1, (hc hcc).2.2.1, (hc hcc).2.2.2⟩⟩
                      · rw [if_neg hS1]
                        by_cases hS2 : s.contact_step = 2
                        · rw [if_pos hS2]
                          exact ⟨fun _ => h2 (by omega), fun _ => ⟨h2 (by omega), rfl⟩,
                            fun hcc => ⟨h2 (by omega), rfl, (hc hcc).2.2.1, (hc hcc).2.2.2⟩⟩
                        · rw [if_neg hS2]
                          by_cases hS3 : s.contact_step = 3
                          · rw [if_pos hS3]
                            exact ⟨fun _ => (h3 (by omega)).1,
                              fun _ => ⟨(h3 (by omega)).1, (h3 (by omega)).2⟩,
                              fun _ => ⟨(h3 (by omega)).1, (h3 (by omega)).2, rfl, rfl⟩⟩
                          · rw [if_neg hS3]
                            exact inv_cac env s input low ⟨h2, h3, hc⟩
                    · rw [if_neg hFL]
                      exact inv_cac env s input low ⟨h2, h3, hc⟩

lemma inv_cwu (env : Env) (s₀ : ChatState) (input : String) (h : Inv s₀) :
    Inv (chat_with_user env s₀ input).state := by
  obtain ⟨h2, h3, hc⟩ := h
  exact inv_chatDispatch env _ input (pyLower input) ⟨h2, h3, hc⟩

lemma inv_chatTurn (env : Env) (s : ChatState) (input : String) (s' : ChatState)
    (h : Inv s) (ht : ChatTurn env s input s') : Inv s' := by
  unfold ChatTurn at ht
  have hres := inv_cwu env s input h
  cases hcw : chat_with_user env s input with
  | direct t =>
    rw [hcw] at ht hres
    dsimp only at ht
    dsimp only [TurnResult.state] at hres
    exact ht ▸ hres
  | toGraph t =>
    rw [hcw] at ht hres
    dsimp only at ht
    dsimp only [TurnResult.state] at hres
    exact inv_graphRun env t s' hres ht

lemma inv_reachable (env : Env) (s : ChatState) (hr : Reachable env s) : Inv s := by
  induction hr with
  | init => exact ⟨fun hh => absurd hh (by decide), fun hh => absurd hh (by decide),
      fun hcc => absurd hcc (by decide)⟩
  | step s input s' _ ht ih => exact inv_chatTurn env s input s' ih ht

/-- C8: in every reachable conversation state, a true `contact_info_collected`
flag implies non-null name, email and phone and an executed persistence
attempt; no reachable operation sets the flag otherwise (the one node that
would, `connect_to_agent`, is never selected by the router). -/
theorem contact_collected_invariant (env : Env) (s : ChatState)
    (hr : Reachable env s) (hcol : s.contact_info_collected = true) :
    s.customer_name.isSome = true ∧ s.customer_email.isSome = true ∧
      s.customer_phone.isSome = true ∧ s.persist_attempted = true :=
  (inv_reachable env s hr).2.2 hcol

/-- A concrete environment: empty indexes, empty vector store, an LLM that
answers with the empty string, trivial date rendering, data loading up. -/
def env₀ : Env :=
  { order_index := fun _ => none
    customer_index := fun _ => []
    vec_order := fun _ => none
    vec_customer := fun _ => []
    llm := fun _ => ""
    renderDate := fun _ => ""
    now := 0
    dataOk := true }

lemma chatTurn_direct (env : Env) (s : ChatState) (input : String) (t : ChatState)
    (h : chat_with_user env s input = TurnResult.direct t) : ChatTurn env s input t := by
  unfold ChatTurn
  rw [h]

def wState1 : ChatState := (chat_with_user env₀ initState "agent").state

def wState2 : ChatState := (chat_with_user env₀ wState1 "Jane Doe").state

def wState3 : ChatState := (chat_with_user env₀ wState2 "jane@x.com").state

def wState4 : ChatState := (chat_with_user env₀ wState3 "555-1234").state

lemma reach_wState4 : Reachable env₀ wState4 :=
  Reachable.step wState3 "555-1234" wState4
    (Reachable.step wState2 "jane@x.com" wState3
      (Reachable.step wState1 "Jane Doe" wState2
        (Reachable.step initState "agent" wState1 Reachable.init
          (chatTurn_direct env₀ initState "agent" wState1 (by decide)))
        (chatTurn_direct env₀ wState1 "Jane Doe" wState2 (by decide)))
      (chatTurn_direct env₀ wState2 "jane@x.com" wState3 (by decide)))
    (chatTurn_direct env₀ wState3 "555-1234" wState4 (by decide))

theorem contact_collected_invariant_witness :
    Reachable env₀ wState4 ∧ wState4.contact_info_collected = true ∧
      (wState4.customer_name.isSome = true ∧ wState4.customer_email.isSome = true ∧
        wState4.customer_phone.isSome = true ∧ wState4.persist_attempted = true) :=
  ⟨reach_wState4, by decide,
    contact_collected_invariant env₀ wState4 reach_wState4 (by decide)⟩

/-! ## FAQ precedence (C3, C4) and flow cancellation (C5) -/

lemma faqMatch7_none (low : String) (h : faqMatch7 low = none) :
    ¬ containsAny low return_policy_phrases = true ∧
    ¬ containsAny low shipping_phrases = true ∧
    ¬ containsAny low payment_phrases = true ∧
    ¬ containsAny low warranty_phrases = true ∧
    ¬ containsAny low cancel_order_phrases = true ∧
    ¬ containsAny low gift_card_phrases = true ∧
    ¬ containsAny low contact_info_phrases = true := by
  unfold faqMatch7 at h
  split_ifs at h with h1 h2 h3 h4 h5 h6 h7
  exact ⟨h1, h2, h3, h4, h5, h6, h7⟩

/-- C3 (amended): the seven FAQ categories whose checks precede the
order-lookup branch (return policy, shipping, payment, warranty,
cancellation, gift cards, contact info) do take precedence over lookup: with
no contact flow active, any input matching one of them — in particular one
that also carries a 32-character identifier — gets exactly the canned FAQ
response, with `order_lookup_attempted` and every other flag untouched.
(Greeting and goodbye, FAQ-like intents per the spec, are checked *after*
the lookup branch; see the counterexample.) -/
theorem faq_seven_before_lookup (env : Env) (s : ChatState) (input resp : String)
    (hflow : ¬ (s.needs_human_agent = true ∧ s.contact_info_collected = false))
    (hfaq : faqMatch7 (pyLower input) = some resp) :
    chat_with_user env s input =
      TurnResult.direct { s with messages := s.messages ++ [userMsg input, asstMsg resp] } := by
  unfold chat_with_user chatDispatch
  rw [if_neg (fun hcc => hflow ⟨hcc.1, hcc.2.1⟩)]
  unfold faqMatch7 at hfaq
  by_cases h1 : containsAny (pyLower input) return_policy_phrases = true
  · rw [if_pos h1] at hfaq ⊢
    obtain rfl := Option.some_inj.mp hfaq
    simp [List.append_assoc]
  · rw [if_neg h1] at hfaq ⊢
    by_cases h2 : containsAny (pyLower input) shipping_phrases = true
    · rw [if_pos h2] at hfaq ⊢
      obtain rfl := Option.some_inj.mp hfaq
      simp [List.append_assoc]
    · rw [if_neg h2] at hfaq ⊢
      by_cases h3 : containsAny (pyLower input) payment_phrases = true
      · rw [if_pos h3] at hfaq ⊢
        obtain rfl := Option.some_inj.mp hfaq
        simp [List.append_assoc]
      · rw [if_neg h3] at hfaq ⊢
        by_cases h4 : containsAny (pyLower input) warranty_phrases = true
        · rw [if_pos h4] at hfaq ⊢
          obtain rfl := Option.some_inj.mp hfaq
          simp [List.append_assoc]
        · rw [if_neg h4] at hfaq ⊢
          by_cases h5 : containsAny (pyLower input) cancel_order_phrases = true
          · rw [if_pos h5] at hfaq ⊢
            obtain rfl := Option.some_inj.mp hfaq
            simp [List.append_assoc]
          · rw [if_neg h5] at hfaq ⊢
            by_cases h6 : containsAny (pyLower input) gift_card_phrases = true
            · rw [if_pos h6] at hfaq ⊢
              obtain rfl := Option.some_inj.mp hfaq
              simp [List.append_assoc]
            · rw [if_neg h6] at hfaq ⊢
              by_cases h7 : containsAny (pyLower input) contact_info_phrases = true
              · rw [if_pos h7] at hfaq ⊢
                obtain rfl := Option.some_inj.mp hfaq
                simp [List.append_assoc]
              · rw [if_neg h7] at hfaq
                exact absurd hfaq (by simp)

theorem faq_seven_before_lookup_witness :
    ¬ (initState.needs_human_agent = true ∧ initState.contact_info_collected = false) ∧
    faqMatch7 (pyLower "what is your return policy") = some returnPolicyText ∧
    chat_with_user env₀ initState "what is your return policy" =
      TurnResult.direct { initState with
        messages := initState.messages ++
          [userMsg "what is your return policy", asstMsg returnPolicyText] } :=
  ⟨by decide, by decide,
    faq_seven_before_lookup env₀ initState "what is your return policy" returnPolicyText
      (by decide) (by decide)⟩

def c3Input : String := "hello e481f51cbdc54678b7cc49136f2d6af7"

/-- C3 counterexample: "hello" is a greeting — an FAQ-like canned intent in
the spec's FAQ responder — yet with an identifier in the same input the turn
runs the direct lookup branch first: `order_lookup_attempted` is set and the
lookup's not-found message is returned instead of the greeting text. -/
theorem faq_before_lookup_cex :
    containsAny (pyLower c3Input) greeting_phrases = true ∧
    (hexSearch c3Input).isSome = true ∧
    initState.needs_human_agent = false ∧
    chat_with_user env₀ initState c3Input =
      TurnResult.direct { initState with
        messages := [userMsg c3Input,
          asstMsg (notFoundBothText "e481f51cbdc54678b7cc49136f2d6af7")]
        order_lookup_attempted := true } ∧
    notFoundBothText "e481f51cbdc54678b7cc49136f2d6af7" ≠ greetingText := by
  exact ⟨by decide, by decide, rfl, by decide, by decide⟩

/-- C4 (amended): `chat_with_user` checks the seven FAQ categories *before*
the handoff triggers.  A handoff-trigger input that matches no FAQ category
(and no active flow) does initiate the contact flow: the name prompt is
emitted and `contact_step` lands at 1 (the flow enters at state 0 and the
prompt advances it); but an input matching both gets the FAQ response and no
flow is started. -/
theorem handoff_after_faq (env : Env) (s : ChatState) (input : String)
    (hflow : ¬ (s.needs_human_agent = true ∧ s.contact_info_collected = false))
    (hfaq : faqMatch7 (pyLower input) = none)
    (hhk : containsAny (pyLower input) human_keywords_cw = true)
    (hnh : s.needs_human_agent = false) :
    chat_with_user env s input =
      TurnResult.direct { s with needs_human_agent := true, contact_step := 1,
                                 messages := s.messages ++ [userMsg input, asstMsg askNameText] } := by
  obtain ⟨h1, h2, h3, h4, h5, h6, h7⟩ := faqMatch7_none _ hfaq
  unfold chat_with_user chatDispatch
  rw [if_neg (fun hcc => hflow ⟨hcc.1, hcc.2.1⟩), if_neg h1, if_neg h2, if_neg h3, if_neg h4,
    if_neg h5, if_neg h6, if_neg h7, if_pos (⟨hhk, hnh⟩ :
      containsAny (pyLower input) human_keywords_cw = true ∧
        ({ s with messages := s.messages ++ [userMsg input] } : ChatState).needs_human_agent = false)]
  simp [List.append_assoc]

theorem handoff_after_faq_witness :
    ¬ (initState.needs_human_agent = true ∧ initState.contact_info_collected = false) ∧
    faqMatch7 (pyLower "i want to speak to a human") = none ∧
    containsAny (pyLower "i want to speak to a human") human_keywords_cw = true ∧
    initState.needs_human_agent = false ∧
    chat_with_user env₀ initState "i want to speak to a human" =
      TurnResult.direct { initState with needs_human_agent := true, contact_step := 1,
                                         messages := initState.messages ++
                                           [userMsg "i want to speak to a human", asstMsg askNameText] } :=
  ⟨by decide, by decide, by decide, rfl,
    handoff_after_faq env₀ initState "i want to speak to a human"
      (by decide) (by decide) (by decide) rfl⟩

def c4Input : String := "what is your return policy? i want to speak to a human"

/-- C4 counterexample: an input containing both the handoff trigger
"speak to a human" and the FAQ trigger "return policy", dispatched with no
active flow, returns the return-policy FAQ text and leaves
`needs_human_agent = false`, `contact_step = 0`: the contact flow is not
initiated, so the handoff check does not precede the FAQ check. -/
theorem handoff_priority_cex :
    containsAny (pyLower c4Input) human_keywords_cw = true ∧
    containsAny (pyLower c4Input) return_policy_phrases = true ∧
    initState.needs_human_agent = false ∧
    chat_with_user env₀ initState c4Input =
      TurnResult.direct { initState with
        messages := [userMsg c4Input, asstMsg returnPolicyText] } := by
  exact ⟨by decide, by decide, rfl, by decide⟩

/-- C5 (amended): at any active contact-collection step, a message containing
a cancellation keyword or an order-lookup keyword aborts the flow —
`needs_human_agent := false`, `contact_step := 0`, no persistence call — and
answers with the cancellation acknowledgement (or the customer-ID redirect
when an order keyword matched).  The partially collected name/email/phone
fields are retained, not cleared. -/
theorem cancel_resets_flow (env : Env) (s : ChatState) (input : String)
    (hnh : s.needs_human_agent = true) (hcol : s.contact_info_collected = false)
    (hkw : containsAny (pyLower input) cancel_keywords_cw = true ∨
           containsAny (pyLower input) customer_id_keywords = true) :
    chat_with_user env s input =
      TurnResult.direct { s with
        needs_human_agent := false
        contact_step := 0
        messages := s.messages ++
          [userMsg input,
           asstMsg (if containsAny (pyLower input) customer_id_keywords = true
                    then custIdRedirectText else cancelFlowText)] } := by
  unfold chat_with_user chatDispatch
  rw [if_pos (⟨hnh, hcol, hkw⟩ :
    ({ s with messages := s.messages ++ [userMsg input] } : ChatState).needs_human_agent = true ∧
      ({ s with messages := s.messages ++ [userMsg input] } : ChatState).contact_info_collected = false ∧
      (containsAny (pyLower input) cancel_keywords_cw = true ∨
        containsAny (pyLower input) customer_id_keywords = true))]
  dsimp only
  by_cases hcid : containsAny (pyLower input) customer_id_keywords = true
  · rw [if_pos hcid, if_pos hcid]
    simp [List.append_assoc]
  · rw [if_neg hcid, if_neg hcid]
    simp [List.append_assoc]

theorem cancel_resets_flow_witness :
    wState2.needs_human_agent = true ∧ wState2.contact_info_collected = false ∧
    containsAny (pyLower "nevermind") cancel_keywords_cw = true ∧
    chat_with_user env₀ wState2 "nevermind" =
      TurnResult.direct { wState2 with
        needs_human_agent := false
        contact_step := 0
        messages := wState2.messages ++
          [userMsg "nevermind",
           asstMsg (if containsAny (pyLower "nevermind") customer_id_keywords = true
                    then custIdRedirectText else cancelFlowText)] } :=
  ⟨by decide, by decide, by decide,
    cancel_resets_flow env₀ wState2 "nevermind" (by decide) (by decide) (Or.inl (by decide))⟩

def c5Cex : ChatState := (chat_with_user env₀ wState2 "nevermind").state

/-- C5 counterexample: from step 2 of a flow where the name "Jane Doe" was
already collected, the input "nevermind" resets the flags and makes no
persistence call — but `customer_name` is *not* cleared: it is still
`some "Jane Doe"` after the abort. -/
theorem cancel_clears_fields_cex :
    wState2.contact_step = 2 ∧ wState2.customer_name = some "Jane Doe" ∧
    wState2.needs_human_agent = true ∧ wState2.contact_info_collected = false ∧
    containsAny (pyLower "nevermind") cancel_keywords_cw = true ∧
    chat_with_user env₀ wState2 "nevermind" = TurnResult.direct c5Cex ∧
    c5Cex.needs_human_agent = false ∧ c5Cex.contact_step = 0 ∧
    c5Cex.persist_attempted = false ∧
    c5Cex.customer_name = some "Jane Doe" := by
  exact ⟨by decide, by decide, by decide, by decide, by decide, by decide, by decide,
    by decide, by decide, by decide⟩

/-! ## Message deduplication (C9) -/

/-- Two consecutive entries of the message list are identical. -/
def hasConsecDup : List Msg → Bool
  | [] => false
  | [_] => false
  | a :: b :: rest => decide (a = b) || hasConsecDup (b :: rest)

/-- The deduplication pass of `app.py`'s `process_message` (lines 256-265):
keep the first occurrence of each `{role, content}` pair; `seen` is the set
accumulated so far. -/
def dedupAux (seen : List Msg) : List Msg → List Msg
  | [] => []
  | m :: rest => if m ∈ seen then dedupAux seen rest else m :: dedupAux (m :: seen) rest

def dedupMessages (msgs : List Msg) : List Msg := dedupAux [] msgs

lemma dedupAux_not_mem (l : List Msg) : ∀ (seen : List Msg) (m : Msg),
    m ∈ seen → m ∉ dedupAux seen l := by
  induction l with
  | nil => intro seen m _; simp [dedupAux]
  | cons a rest ih =>
    intro seen m hm
    by_cases ha : a ∈ seen
    · rw [dedupAux, if_pos ha]
      exact ih seen m hm
    · rw [dedupAux, if_neg ha]
      intro hmem
      rcases List.mem_cons.mp hmem with rfl | hmem'
      · exact ha hm
      · exact ih (a :: seen) m (List.mem_cons_of_mem a hm) hmem'

lemma dedupAux_nodup (l : List Msg) : ∀ seen : List Msg, (dedupAux seen l).Nodup := by
  induction l with
  | nil => intro seen; simp [dedupAux]
  | cons a rest ih =>
    intro seen
    by_cases ha : a ∈ seen
    · rw [dedupAux, if_pos ha]; exact ih seen
    · rw [dedupAux, if_neg ha]
      exact List.nodup_cons.mpr
        ⟨dedupAux_not_mem rest (a :: seen) a (List.mem_cons_self a seen), ih (a :: seen)⟩

lemma hasConsecDup_eq_false_of_nodup (l : List Msg) (h : l.Nodup) :
    hasConsecDup l = false := by
  induction l with
  | nil => rfl
  | cons a rest ih =>
    cases rest with
    | nil => rfl
    | cons b t =>
      have hab : a ≠ b := by
        intro he
        exact (List.nodup_cons.mp h).1 (he ▸ List.mem_cons_self b t)
      have ht := ih (List.nodup_cons.mp h).2
      simp [hasConsecDup, hab, ht]

/-- C9 (amended): the graph router appends no message and performs no
deduplication itself — consecutive identical entries can appear right after a
dispatch (see the counterexample).  The only deduplication lives in
`app.py`'s `process_message` and is *global*: it keeps the first occurrence
of every `{role, content}` pair, so after it the message list has no two
identical entries at any positions — in particular no two consecutive ones. -/
theorem router_appends_nothing_dedup_global :
    (∀ s : ChatState, ((router s).2).messages = s.messages) ∧
    (∀ msgs : List Msg, (dedupMessages msgs).Nodup) ∧
    (∀ msgs : List Msg, hasConsecDup (dedupMessages msgs) = false) :=
  ⟨router_snd_messages,
   fun msgs => dedupAux_nodup msgs [],
   fun msgs => hasConsecDup_eq_false_of_nodup _ (dedupAux_nodup msgs [])⟩

/-- The LLM answering with exactly the lookup node's re-prompt text — a
response text the external collaborator is free to produce. -/
def envLoop : Env := { env₀ with llm := fun _ => lookupPromptText }

def c9Graph : ChatState := (chat_with_user envLoop initState "where is my order").state

def c9T1 : ChatState := applyNode envLoop NodeTag.continueConversation c9Graph

def c9U : ChatState := applyNode envLoop NodeTag.lookupOrder (router c9T1).2

def c9Bad : ChatState := { c9Graph with messages := c9U.messages ++ [asstMsg graphErrorText] }

/-- C9 counterexample: a turn on "where is my order" reaches the graph; the
`continue_conversation` dispatch appends the LLM text, the router then sends
the turn to `lookup_order`, which appends the identical re-prompt — after
that dispatch `messages` holds two consecutive identical assistant entries,
and no dispatch deduplicates them.  The state is reachable in one turn. -/
theorem router_dedup_cex :
    chat_with_user envLoop initState "where is my order" = TurnResult.toGraph c9Graph ∧
    ChatTurn envLoop initState "where is my order" c9Bad ∧
    Reachable envLoop c9Bad ∧
    hasConsecDup c9U.messages = true ∧
    hasConsecDup c9Bad.messages = true := by
  have h1 : chat_with_user envLoop initState "where is my order" = TurnResult.toGraph c9Graph :=
    by decide
  have hseq : NodeSeq envLoop (applyNode envLoop NodeTag.continueConversation c9Graph) c9U :=
    NodeSeq.step c9T1 c9U NodeTag.lookupOrder (by decide) (by decide) (NodeSeq.refl c9U)
  have hgr : GraphRun envLoop c9Graph c9Bad := ⟨c9U, hseq, Or.inr rfl⟩
  have hturn : ChatTurn envLoop initState "where is my order" c9Bad := by
    unfold ChatTurn
    rw [h1]
    exact hgr
  exact ⟨h1, hturn, Reachable.step initState "where is my order" c9Bad Reachable.init hturn,
    by decide, by decide⟩

/-! ## `HumanRepAgent.process` (`src/agents/human_rep_agent.py`) and
`save_contact_request` (`src/services/contact_service.py`) -/

/-- The step constants `STATE_ASK_NAME` … `STATE_COMPLETE`. -/
inductive RepStep
  | askName
  | askEmail
  | askPhone
  | confirm
  | complete
deriving DecidableEq, Repr

/-- The human-rep slice of `ConversationState.extracted_entities`
(`human_rep_step/name/email/phone`; the step key defaults to ask-name). -/
structure RepState where
  step : RepStep
  name : Option String
  email : Option String
  phone : Option String
deriving DecidableEq, Repr

/-- The contact database collaborator: whether the commit succeeds.
(`save_contact_request` catches its own exceptions and rolls back, so a
raising database also surfaces as `false`.) -/
structure RepEnv where
  dbOk : Bool

/-- `save_contact_request` (`src/services/contact_service.py`, lines 10-49):
refuse a missing name or email, otherwise report the database outcome.  The
free-text `notes` argument does not influence the outcome and is omitted. -/
def save_contact_request (env : RepEnv) (full_name email : String)
    (_phone_number : Option String) : Bool :=
  if full_name = "" ∨ email = "" then false else env.dbOk

/-- `name.split()[0]`. -/
def firstWord (s : String) : String := (pyWords s).headI

/-- The phone value the confirm step ends up storing: `None` for "skip",
the stripped lowercased input when it has a digit, and `None` (treated as
skipped) for any other input. -/
def collectedPhone (input : String) : Option String :=
  let phone := pyLower (pyStrip input)
  if phone = "skip" then none
  else if (phone.toList.any Char.isDigit) = true then some phone
  else none

/-- `HumanRepAgent.process` (lines 56-175): the ask-name → ask-email →
ask-phone → confirm → complete machine.  The returned triple is the new
state, the response text, and whether `save_contact_request` was called
this turn. -/
def HumanRepAgent.process (env : RepEnv) (s : RepState) (user_input : String) :
    RepState × String × Bool :=
  match s.step with
  | RepStep.askName =>
    ({ s with step := RepStep.askEmail },
     "Okay, I can help connect you with a human representative. First, could you please provide your full name?",
     false)
  | RepStep.askEmail =>
    let name := pyStrip user_input
    if name = "" then
      (s, "Please provide your full name so I can create the request.", false)
    else
      ({ s with step := RepStep.askPhone, name := some name },
       "Thanks, " ++ firstWord name ++ "! Now, could you please provide your email address?",
       false)
  | RepStep.askPhone =>
    let email := pyStrip user_input
    if email = "" ∨ strContains email "@" = false then
      (s, "That doesn't look like a valid email address. Could you please provide your email?", false)
    else
      ({ s with step := RepStep.confirm, email := some email },
       "Got it. Lastly, could you provide a phone number? You can also say 'skip' if you prefer not to.",
       false)
  | RepStep.confirm =>
    let cph := collectedPhone user_input
    if s.name.getD "" = "" ∨ s.email.getD "" = "" then
      ({ s with step := RepStep.askName, name := none, email := none, phone := none },
       "I seem to have missed some details. Let's start over. Could you please provide your full name?",
       false)
    else
      let name := s.name.getD ""
      let email := s.email.getD ""
      if save_contact_request env name email cph = true then
        ({ s with step := RepStep.complete },
         "Thank you, " ++ firstWord name ++ "! I've created a request with your details (Email: " ++
           email ++
           (match cph with
            | some p => ", Phone: " ++ p
            | none => "") ++
           "). A member of our team will reach out to you shortly.",
         true)
      else
        (s, "I'm sorry, there was an issue saving your request. Please try asking again in a moment.",
         true)
  | RepStep.complete =>
    (s, "I've already logged your request for assistance. Our team will be in touch soon!", false)

/-- C6 (amended): in the phone state (`confirm`), with name and email
present, *every* input leads to exactly one persistence call: a digit-bearing
input stores the normalized phone, while "skip" *and any digit-free input*
store null (no re-prompt path exists).  On a successful save the flow
completes with the confirmation message naming the stored data; on a failed
save it stays at `confirm` with an apology. -/
theorem phone_state_persists_once (env : RepEnv) (s : RepState) (input n e : String)
    (hstep : s.step = RepStep.confirm)
    (hn : s.name = some n) (hne : ¬ n = "")
    (he : s.email = some e) (hee : ¬ e = "") :
    (HumanRepAgent.process env s input).2.2 = true ∧
    (env.dbOk = true →
      (HumanRepAgent.process env s input).1 = { s with step := RepStep.complete } ∧
      (HumanRepAgent.process env s input).2.1 =
        "Thank you, " ++ firstWord n ++ "! I've created a request with your details (Email: " ++
          e ++
          (match collectedPhone input with
           | some p => ", Phone: " ++ p
           | none => "") ++
          "). A member of our team will reach out to you shortly.") ∧
    (env.dbOk = false →
      (HumanRepAgent.process env s input).1 = s ∧
      (HumanRepAgent.process env s input).2.1 =
        "I'm sorry, there was an issue saving your request. Please try asking again in a moment.") := by
  have hor : ¬ (s.name.getD "" = "" ∨ s.email.getD "" = "") := by
    rw [hn, he]
    exact fun hor => hor.elim hne hee
  have hs : save_contact_request env n e (collectedPhone input) = env.dbOk := by
    unfold save_contact_request
    exact if_neg (fun hor2 => hor2.elim hne hee)
  unfold HumanRepAgent.process
  rw [hstep]
  dsimp only
  rw [if_neg hor, hn, he]
  dsimp only [Option.getD]
  rw [hs]
  cases hdb : env.dbOk with
  | true =>
    rw [if_pos rfl]
    exact ⟨rfl, fun _ => ⟨rfl, rfl⟩, fun hfalse => absurd hfalse (by decide)⟩
  | false =>
    rw [if_neg (by decide)]
    exact ⟨rfl, fun htrue => absurd htrue (by decide), fun _ => ⟨rfl, rfl⟩⟩

def repStateC6 : RepState :=
  { step := RepStep.confirm, name := some "Jane Doe", email := some "jane@x.com", phone := none }

def repEnvOk : RepEnv := { dbOk := true }

def repEnvDown : RepEnv := { dbOk := false }

theorem phone_state_persists_once_witness :
    repStateC6.step = RepStep.confirm ∧ repStateC6.name = some "Jane Doe" ∧
    repStateC6.email = some "jane@x.com" ∧
    ((HumanRepAgent.process repEnvOk repStateC6 "555-1234").2.2 = true ∧
      (repEnvOk.dbOk = true →
        (HumanRepAgent.process repEnvOk repStateC6 "555-1234").1 =
          { repStateC6 with step := RepStep.complete } ∧
        (HumanRepAgent.process repEnvOk repStateC6 "555-1234").2.1 =
          "Thank you, " ++ firstWord "Jane Doe" ++
            "! I've created a request with your details (Email: " ++ "jane@x.com" ++
            (match collectedPhone "555-1234" with
             | some p => ", Phone: " ++ p
             | none => "") ++
            "). A member of our team will reach out to you shortly.") ∧
      (repEnvOk.dbOk = false →
        (HumanRepAgent.process repEnvOk repStateC6 "555-1234").1 = repStateC6 ∧
        (HumanRepAgent.process repEnvOk repStateC6 "555-1234").2.1 =
          "I'm sorry, there was an issue saving your request. Please try asking again in a moment.")) :=
  ⟨rfl, rfl, rfl,
    phone_state_persists_once repEnvOk repStateC6 "555-1234" "Jane Doe" "jane@x.com"
      rfl rfl (by decide) rfl (by decide)⟩

/-- C6 counterexample: at the phone step with name and email collected, the
digit-free non-"skip" input "no thanks" is *not* re-prompted: the agent
treats it as skipped, calls persistence once, moves to complete and emits the
confirmation. -/
theorem phone_reprompt_cex :
    ¬ pyLower (pyStrip "no thanks") = "skip" ∧
    (pyLower (pyStrip "no thanks")).toList.any Char.isDigit = false ∧
    (HumanRepAgent.process repEnvOk repStateC6 "no thanks").2.2 = true ∧
    (HumanRepAgent.process repEnvOk repStateC6 "no thanks").1.step = RepStep.complete ∧
    (HumanRepAgent.process repEnvOk repStateC6 "no thanks").2.1 =
      "Thank you, Jane! I've created a request with your details (Email: jane@x.com). A member of our team will reach out to you shortly." := by
  exact ⟨by decide, by decide, by decide, by decide, by decide⟩

/-- C7 (amended): when persistence fails on a completed collection, the user
does *not* receive the thank-you confirmation: the agent answers with an
apology inviting a retry and leaves the flow at `confirm` unchanged; the
thank-you is sent only when the save succeeds. -/
theorem persistence_failure_apology (env : RepEnv) (s : RepState) (input n e : String)
    (hstep : s.step = RepStep.confirm)
    (hn : s.name = some n) (hne : ¬ n = "")
    (he : s.email = some e) (hee : ¬ e = "")
    (hdb : env.dbOk = false) :
    (HumanRepAgent.process env s input).1 = s ∧
    (HumanRepAgent.process env s input).2.1 =
      "I'm sorry, there was an issue saving your request. Please try asking again in a moment." ∧
    (HumanRepAgent.process env s input).2.2 = true := by
  have hor : ¬ (s.name.getD "" = "" ∨ s.email.getD "" = "") := by
    rw [hn, he]
    exact fun hor => hor.elim hne hee
  have hs : save_contact_request env n e (collectedPhone input) = env.dbOk := by
    unfold save_contact_request
    exact if_neg (fun hor2 => hor2.elim hne hee)
  unfold HumanRepAgent.process
  rw [hstep]
  dsimp only
  rw [if_neg hor, hn, he]
  dsimp only [Option.getD]
  rw [hs, hdb, if_neg (by decide)]
  exact ⟨rfl, rfl, rfl⟩

theorem persistence_failure_apology_witness :
    repEnvDown.dbOk = false ∧ repStateC6.step = RepStep.confirm ∧
    ((HumanRepAgent.process repEnvDown repStateC6 "555-1234").1 = repStateC6 ∧
      (HumanRepAgent.process repEnvDown repStateC6 "555-1234").2.1 =
        "I'm sorry, there was an issue saving your request. Please try asking again in a moment." ∧
      (HumanRepAgent.process repEnvDown repStateC6 "555-1234").2.2 = true) :=
  ⟨rfl, rfl,
    persistence_failure_apology repEnvDown repStateC6 "555-1234" "Jane Doe" "jane@x.com"
      rfl rfl (by decide) rfl (by decide) rfl⟩

/-- C7 counterexample: a failing save yields the apology — a response that
does not even contain "Thank you" — and the flow stays at `confirm`, so the
user does not receive the thank-you message. -/
theorem persistence_failure_thankyou_cex :
    repEnvDown.dbOk = false ∧
    (HumanRepAgent.process repEnvDown repStateC6 "555-1234").2.1 =
      "I'm sorry, there was an issue saving your request. Please try asking again in a moment." ∧
    (HumanRepAgent.process repEnvDown repStateC6 "555-1234").1.step = RepStep.confirm ∧
    strContains (HumanRepAgent.process repEnvDown repStateC6 "555-1234").2.1 "Thank you" = false := by
  exact ⟨rfl, by decide, by decide, by decide⟩

end ECommerceBot
